import Mathlib

/-
Verification of the user-space TCP connection engine in `src/tcp.rs`: the
wraparound sequence-number comparator, the segment acceptance test, the
connection state machine, segment transmission and reset sending.

Modelling conventions.  Machine integers (`u32`, `u16`) become `Nat`, with
the wrapping operations of the source written explicitly as `% N32`
(`wrapping_add`, `wrapping_sub`).  The raw-frame device is modelled by
returning the transmitted segments as data; `Option` models panics
(`none` corresponds to a failed `assert!` or a reached `unreachable!` in
the source).  The source never constructs an `Err` value itself (I/O
failures of the external device are merely propagated), so the success
path is the whole model.  The external header codec (the `etherparse`
crate) is out of scope of the repository; the fields and the checksum
operation the engine uses are modelled from the spec (section 6).
-/

/-- The size of the `u32` sequence-number ring, 2^32. -/
def N32 : Nat := 4294967296

/-- Connection states, from `enum State` in `src/tcp.rs` (the `Listen`
variant is commented out in the source). -/
inductive State where
  | SynRcvd
  | Estab
  | FinWait1
  | FinWait2
  | TimeWait
  deriving DecidableEq

/-- From `State::is_synchoronized` (source spelling kept): every state but
`SynRcvd` is synchronized. -/
def State.is_synchoronized : State → Bool
  | State.SynRcvd => false
  | State.Estab | State.FinWait1 | State.FinWait2 | State.TimeWait => true

/-- Send Sequence Space (RFC 793 S3.2), from `struct SendSequenceSpace`. -/
structure SendSequenceSpace where
  una : Nat
  nxt : Nat
  wnd : Nat
  up : Bool
  wl1 : Nat
  wl2 : Nat
  iss : Nat
  deriving DecidableEq

/-- Receive Sequence Space (RFC 793 S3.2), from `struct RecvSequenceSpace`. -/
structure RecvSequenceSpace where
  nxt : Nat
  wnd : Nat
  up : Bool
  irs : Nat
  deriving DecidableEq

/-- Modelled from the spec: the structured IPv4 header fields of the external
header codec that the engine reads or writes (spec sections 2 and 6).  The
engine never adds IP options, so the header length is the fixed 20 bytes. -/
structure Ipv4Header where
  payload_len : Nat
  time_to_live : Nat
  protocol : Nat
  source : List Nat
  destination : List Nat
  deriving DecidableEq

/-- Modelled from the spec: the structured TCP header fields of the external
header codec that the engine reads or writes (spec sections 2 and 6).  The
engine never adds TCP options, so the header length is the fixed 20 bytes. -/
structure TcpHeader where
  source_port : Nat
  destination_port : Nat
  sequence_number : Nat
  acknowledgment_number : Nat
  window_size : Nat
  checksum : Nat
  syn : Bool
  ack : Bool
  fin : Bool
  rst : Bool
  deriving DecidableEq

/-- The central per-session entity, from `struct Connection`. -/
structure Connection where
  state : State
  send : SendSequenceSpace
  recv : RecvSequenceSpace
  ip : Ipv4Header
  tcp : TcpHeader
  deriving DecidableEq

/-- The parsed view of an inbound segment that `accept` and `on_packet`
consume: the TCP header fields they read plus the payload bytes. -/
structure InSegment where
  source_port : Nat
  destination_port : Nat
  sequence_number : Nat
  acknowledgment_number : Nat
  window_size : Nat
  syn : Bool
  fin : Bool
  data : List Nat
  deriving DecidableEq

/-- The parsed view of the inbound IPv4 header that `accept` reads. -/
structure Ipv4In where
  source : List Nat
  destination : List Nat
  deriving DecidableEq

/-- One outgoing wire segment handed to the raw-frame device: the serialized
headers (as stamped at serialization time, before the SYN/FIN flags are
cleared in the template) followed by the payload bytes that fit. -/
structure OutSegment where
  ip : Ipv4Header
  tcp : TcpHeader
  payload : List Nat
  deriving DecidableEq

/-- From `fn is_between_wrapped` in `src/tcp.rs`: is `x` strictly inside the
open circular interval `(start, e)` of the 32-bit sequence ring.  The
source matches on `start.cmp(&x)`; the three arms are translated as the
three branches below. -/
def is_between_wrapped (start x e : Nat) : Bool :=
  if start = x then
    false
  else if start < x then
    if e ≥ start ∧ e ≤ x then false else true
  else
    if e < start ∧ e > x then true else false

/-- Modelled from the spec: the reference strict-membership test of `x` in
the open circular interval `(start, e)` on the 2^32 modular ring (spec
section 8), phrased with relative offsets from `start`: the offset of `x`
is nonzero and smaller than the offset of `e`. -/
def wrappedRef (start x e : Nat) : Prop :=
  0 < (x + N32 - start) % N32 ∧ (x + N32 - start) % N32 < (e + N32 - start) % N32

/-- Claim C1: for 32-bit values, `is_between_wrapped` returns `false` when
`start = x`; when `start > x` it returns `true` exactly when
`e < start ∧ e > x`; when `start < x` it returns `true` exactly when
`¬(e ≥ start ∧ e ≤ x)`; and whenever `start ≠ x` it agrees with the
reference strict-membership test of `x` in the open circular interval
`(start, e)` on the 2^32 modular ring. -/
theorem claim_C1 (start x e : Nat)
    (hs : start < N32) (hx : x < N32) (he : e < N32) :
    (start = x → is_between_wrapped start x e = false) ∧
    (x < start → (is_between_wrapped start x e = true ↔ (e < start ∧ x < e))) ∧
    (start < x → (is_between_wrapped start x e = true ↔ ¬(start ≤ e ∧ e ≤ x))) ∧
    (start ≠ x → (is_between_wrapped start x e = true ↔ wrappedRef start x e)) := by
  simp only [N32] at hs hx he
  unfold is_between_wrapped wrappedRef
  simp only [N32]
  refine ⟨?_, ?_, ?_, ?_⟩ <;> intro h <;> split_ifs <;> simp_all <;> omega

/-- Claim C1 witness: the theorem instantiated at the spec example
`(start, x, e) = (100, 150, 200)`, where the comparator answers `true` and
the reference membership holds. -/
theorem claim_C1_witness :
    is_between_wrapped 100 150 200 = true ∧ wrappedRef 100 150 200 := by
  have h := claim_C1 100 150 200 (by decide) (by decide) (by decide)
  refine ⟨by decide, ?_⟩
  exact (h.2.2.2 (by decide)).mp (by decide)

/-- The sequence-space length of an inbound segment, from the `slen`
computation at the top of `on_packet` (lines 206 to 212): the payload
length plus one for each of the FIN and SYN flags. -/
def slenOf (s : InSegment) : Nat :=
  s.data.length + (if s.fin then 1 else 0) + (if s.syn then 1 else 0)

/-- The segment acceptance test of `on_packet` (lines 213 to 235),
extracted as a predicate: `true` exactly on the inputs on which
`on_packet` does not take one of the early `return Ok(())` exits of that
block.  `rnxt` and `rwnd` are `recv.nxt` and `recv.wnd`; `wend` is the
wrapping sum of the two. -/
def segmentAcceptable (rnxt rwnd seqn slen : Nat) : Bool :=
  let wend := (rnxt + rwnd) % N32
  if slen = 0 then
    if rwnd = 0 then
      decide (seqn = rnxt)
    else
      is_between_wrapped ((rnxt + N32 - 1) % N32) seqn wend
  else
    if rwnd = 0 then
      false
    else
      is_between_wrapped ((rnxt + N32 - 1) % N32) seqn wend
        || is_between_wrapped ((rnxt + N32 - 1) % N32) ((seqn + (slen - 1)) % N32) wend

/-- Modelled from the spec: the acceptance condition as the spec states it
(section 4.2), a three-way disjunction over `slen` and the receive
window. -/
def acceptSpec (rnxt rwnd seqn slen : Nat) : Prop :=
  let wend := (rnxt + rwnd) % N32
  (slen = 0 ∧ rwnd = 0 ∧ seqn = rnxt) ∨
  (slen = 0 ∧ 0 < rwnd ∧
    is_between_wrapped ((rnxt + N32 - 1) % N32) seqn wend = true) ∨
  (0 < slen ∧ 0 < rwnd ∧
    (is_between_wrapped ((rnxt + N32 - 1) % N32) seqn wend = true ∨
     is_between_wrapped ((rnxt + N32 - 1) % N32) ((seqn + (slen - 1)) % N32) wend = true))

/-- Claim C2: with `slen = payload_len + fin + syn` and
`wend = recv.nxt + recv.wnd` modular, the acceptance test of `on_packet`
accepts a segment exactly under the three-way condition of the spec; in
particular with `slen > 0` and `recv.wnd = 0` every segment is rejected
regardless of its sequence number. -/
theorem claim_C2 (c : Connection) (s : InSegment) :
    (segmentAcceptable c.recv.nxt c.recv.wnd s.sequence_number (slenOf s) = true ↔
      acceptSpec c.recv.nxt c.recv.wnd s.sequence_number (slenOf s)) ∧
    (0 < slenOf s → c.recv.wnd = 0 →
      segmentAcceptable c.recv.nxt c.recv.wnd s.sequence_number (slenOf s) = false) := by
  unfold segmentAcceptable acceptSpec
  constructor
  · split_ifs <;> simp_all [Nat.pos_iff_ne_zero]
  · intro hlen hwnd
    split_ifs <;> simp_all

/-- Claim C2 witness: a one-byte segment at the exact expected sequence
number against a zero receive window is rejected, while the same segment
against an open window is accepted, and the acceptance of the latter
matches the spec condition. -/
theorem claim_C2_witness :
    segmentAcceptable 1000 0 1000 1 = false ∧
    (segmentAcceptable 1000 10 1000 1 = true ↔ acceptSpec 1000 10 1000 1) := by
  constructor
  · exact (claim_C2
      { state := State.Estab
        send := { una := 0, nxt := 0, wnd := 0, up := false, wl1 := 0, wl2 := 0, iss := 0 }
        recv := { nxt := 1000, wnd := 0, up := false, irs := 0 }
        ip := { payload_len := 0, time_to_live := 64, protocol := 6,
                source := [], destination := [] }
        tcp := { source_port := 0, destination_port := 0, sequence_number := 0,
                 acknowledgment_number := 0, window_size := 0, checksum := 0,
                 syn := false, ack := false, fin := false, rst := false } }
      { source_port := 0, destination_port := 0, sequence_number := 1000,
        acknowledgment_number := 0, window_size := 0, syn := false, fin := false,
        data := [7] }).2 (by decide) (by decide)
  · exact (claim_C2
      { state := State.Estab
        send := { una := 0, nxt := 0, wnd := 0, up := false, wl1 := 0, wl2 := 0, iss := 0 }
        recv := { nxt := 1000, wnd := 10, up := false, irs := 0 }
        ip := { payload_len := 0, time_to_live := 64, protocol := 6,
                source := [], destination := [] }
        tcp := { source_port := 0, destination_port := 0, sequence_number := 0,
                 acknowledgment_number := 0, window_size := 0, checksum := 0,
                 syn := false, ack := false, fin := false, rst := false } }
      { source_port := 0, destination_port := 0, sequence_number := 1000,
        acknowledgment_number := 0, window_size := 0, syn := false, fin := false,
        data := [7] }).1

/-- Modelled from the spec: one fold step of a ones-complement sum, moving
the carry above 16 bits back into the low 16 bits. -/
def foldCarry (t : Nat) : Nat :=
  t % 65536 + t / 65536

/-- Modelled from the spec: fold a ones-complement sum down to 16 bits
(three carry folds suffice for the sums that arise here). -/
def onesFold (t : Nat) : Nat :=
  foldCarry (foldCarry (foldCarry t))

/-- Modelled from the spec: pair a byte sequence into big-endian 16-bit
words, padding a trailing odd byte with zero. -/
def bytesToWords : List Nat → List Nat
  | [] => []
  | [b] => [b * 256]
  | b1 :: b2 :: rest => (b1 * 256 + b2) :: bytesToWords rest

/-- The fixed IPv4 header length of this engine (no IP options), the value
of `ip.header_len()` on every header the engine builds. -/
def ip_header_len : Nat := 20

/-- The fixed TCP header length of this engine (no TCP options), the value
of `tcp.header_len()` on every header the engine builds. -/
def tcp_header_len : Nat := 20

/-- Modelled from the spec: the 16-bit word holding the TCP data offset and
the flag bits in the serialized header. -/
def tcpFlagsWord (t : TcpHeader) : Nat :=
  5 * 4096 + (if t.ack then 16 else 0) + (if t.rst then 4 else 0)
    + (if t.syn then 2 else 0) + (if t.fin then 1 else 0)

/-- Modelled from the spec: the external header codec operation
`checksum(ip_fields, tcp_fields, payload)` of spec section 6 (the
`calc_checksum_ipv4` method of the codec, which `src/tcp.rs` is a caller
of): a 16-bit ones-complement checksum over the IPv4 pseudo header
(source address, destination address, protocol number, TCP length), the
TCP header words (with the checksum field taken as zero), and the payload
bytes. -/
def calc_checksum_ipv4 (ip : Ipv4Header) (t : TcpHeader) (payload : List Nat) : Nat :=
  let pseudo := bytesToWords ip.source ++ bytesToWords ip.destination
    ++ [ip.protocol, tcp_header_len + payload.length]
  let tcpWords := [t.source_port, t.destination_port,
    t.sequence_number / 65536, t.sequence_number % 65536,
    t.acknowledgment_number / 65536, t.acknowledgment_number % 65536,
    tcpFlagsWord t, t.window_size, 0, 0]
  65535 - onesFold (pseudo ++ tcpWords ++ bytesToWords payload).sum

/-- The result of `Connection::write`: the updated connection, the wire
segment handed to the raw-frame device, and the returned count of payload
bytes actually written. -/
structure WriteOut where
  conn : Connection
  seg : OutSegment
  payload_bytes : Nat

/-- From `Connection::write` (lines 152 to 186): stamp the header template
with `send.nxt` and `recv.nxt`, size the IP payload length against the
1500-byte buffer, store the checksum computed with an empty payload slice
(the source passes `&[]` at line 166), serialize, write as much payload as
fits after the headers, advance `send.nxt` by the written payload bytes
plus one for a set SYN flag plus one for a set FIN flag, and clear the SYN
and FIN flags (the source clears each only when it was set, which leaves
the flag `false` in either case). -/
def Connection.write (c : Connection) (payload : List Nat) : WriteOut :=
  let tcp1 := { c.tcp with
                  sequence_number := c.send.nxt
                  acknowledgment_number := c.recv.nxt }
  let size := min 1500 (tcp_header_len + ip_header_len + payload.length)
  let ip1 := { c.ip with payload_len := size - ip_header_len }
  let tcp2 := { tcp1 with checksum := calc_checksum_ipv4 ip1 tcp1 [] }
  let payload_bytes := min payload.length (1500 - ip_header_len - tcp_header_len)
  let nxt1 := (c.send.nxt + payload_bytes) % N32
  let nxt2 := if tcp2.syn then (nxt1 + 1) % N32 else nxt1
  let nxt3 := if tcp2.fin then (nxt2 + 1) % N32 else nxt2
  { conn := { c with
                send := { c.send with nxt := nxt3 }
                tcp := { tcp2 with syn := false, fin := false } }
    seg := { ip := ip1, tcp := tcp2, payload := payload.take payload_bytes }
    payload_bytes := payload_bytes }

/-- From `Connection::send_rst` (lines 188 to 195): set the RST flag, zero
the sequence and acknowledgment numbers of the template (with the source
TODO noting they are not the correct reset numbers), and transmit through
`write`. -/
def Connection.send_rst (c : Connection) : Connection × OutSegment :=
  let c1 := { c with
                tcp := { c.tcp with
                           rst := true
                           sequence_number := 0
                           acknowledgment_number := 0 } }
  let w := Connection.write c1 []
  (w.conn, w.seg)

/-- The connection value `accept` constructs before transmitting (lines 105
to 146 of `src/tcp.rs`): the fixed `iss = 0` and `wnd = 10`, the sequence
spaces initialized from the peer SYN, the IP template with the inbound
addresses swapped, and the TCP template built with the inbound ports
swapped and then given the SYN and ACK flags. -/
def accept_init (iph : Ipv4In) (tcph : InSegment) : Connection :=
  let iss := 0
  let wnd := 10
  { state := State.SynRcvd
    send := { iss := iss, una := iss, nxt := (iss + 1) % N32, wnd := wnd,
              up := false, wl1 := 0, wl2 := 0 }
    recv := { nxt := (tcph.sequence_number + 1) % N32, wnd := tcph.window_size,
              irs := tcph.sequence_number, up := false }
    ip := { payload_len := 0, time_to_live := 64, protocol := 6,
            source := iph.destination, destination := iph.source }
    tcp := { source_port := tcph.destination_port,
             destination_port := tcph.source_port,
             sequence_number := iss, acknowledgment_number := 0,
             window_size := wnd, checksum := 0,
             syn := true, ack := true, fin := false, rst := false } }

/-- From `Connection::accept` (lines 92 to 150): without the SYN flag no
connection is created (`Ok(None)`, not an error); with it, the connection
is constructed and one SYN+ACK segment is transmitted through `write` as
part of creation. -/
def Connection.accept (iph : Ipv4In) (tcph : InSegment) :
    Option (Connection × OutSegment) :=
  if tcph.syn = false then
    none
  else
    let w := Connection.write (accept_init iph tcph) []
    some (w.conn, w.seg)

/-- The `recv.nxt` update of `on_packet` at line 237: after acceptance,
`recv.nxt` becomes `seqn + slen` (wrapping). -/
def recvAdvance (c : Connection) (seqn slen : Nat) : Connection :=
  { c with recv := { c.recv with nxt := (seqn + slen) % N32 } }

/-- The `SynRcvd` block of `on_packet` (lines 251 to 264): in `SynRcvd`,
when the acknowledgment number lies in the open circular interval
`(send.una - 1, send.nxt + 1)`, move to `Estab`; otherwise do nothing (the
reset the source would send there is an unimplemented TODO). -/
def synStep (c : Connection) (ackn : Nat) : Connection :=
  if c.state = State.SynRcvd then
    if is_between_wrapped ((c.send.una + N32 - 1) % N32) ackn
        ((c.send.nxt + 1) % N32) then
      { c with state := State.Estab }
    else
      c
  else
    c

/-- The guard of the ACK block of `on_packet` at line 266: the states
`Estab`, `FinWait1` and `FinWait2` run the ACK validity gate. -/
def inAckStates : State → Bool
  | State.Estab | State.FinWait1 | State.FinWait2 => true
  | _ => false

/-- The peer-FIN block of `on_packet` (lines 290 to 300): on an incoming
FIN, in `FinWait2` set the outgoing FIN flag, transmit, and set the state
back to `FinWait1`; in every other state the source hits `unreachable!`
(modelled as `none`). -/
def finHandle (c : Connection) (finFlag : Bool) (segs : List OutSegment) :
    Option (Connection × List OutSegment) :=
  if finFlag then
    match c.state with
    | State.FinWait2 =>
      let w := Connection.write { c with tcp := { c.tcp with fin := true } } []
      some ({ w.conn with state := State.FinWait1 }, segs ++ [w.seg])
    | _ => none
  else
    some (c, segs)

/-- The tail of `on_packet` after the ACK block (lines 283 to 300): the
`FinWait1` to `FinWait2` promotion when `send.una = send.iss + 2`
(wrapping), followed by the peer-FIN block. -/
def afterAck (c : Connection) (finFlag : Bool) (segs : List OutSegment) :
    Option (Connection × List OutSegment) :=
  let c1 := if c.state = State.FinWait1 ∧ c.send.una = (c.send.iss + 2) % N32 then
      { c with state := State.FinWait2 }
    else
      c
  finHandle c1 finFlag segs

/-- From `Connection::on_packet` (lines 197 to 314), as a pure transition:
the updated connection and the transmitted segments, or `none` when the
source panics (`assert!(data.is_empty())` at line 275, `unreachable!` at
line 298).  An unacceptable segment and a segment failing the ACK validity
gate take the early `return Ok(())` exits at lines 218, 221, 225, 233 and
268. -/
def Connection.on_packet (c : Connection) (s : InSegment) :
    Option (Connection × List OutSegment) :=
  let slen := slenOf s
  if segmentAcceptable c.recv.nxt c.recv.wnd s.sequence_number slen = false then
    some (c, [])
  else
    let c1 := synStep (recvAdvance c s.sequence_number slen) s.acknowledgment_number
    if inAckStates c1.state = false then
      afterAck c1 s.fin []
    else if is_between_wrapped c1.send.una s.acknowledgment_number
        ((c1.send.nxt + 1) % N32) = false then
      some (c1, [])
    else
      let c2 := { c1 with send := { c1.send with una := s.acknowledgment_number } }
      if c2.state = State.Estab then
        if s.data.isEmpty = false then
          none
        else
          let w := Connection.write { c2 with tcp := { c2.tcp with fin := true } } []
          afterAck { w.conn with state := State.FinWait1 } s.fin [w.seg]
      else
        afterAck c2 s.fin []

/-- A concrete TCP header template used to evaluate the operations on
explicit inputs. -/
def exampleTcp : TcpHeader :=
  { source_port := 100, destination_port := 200, sequence_number := 0,
    acknowledgment_number := 0, window_size := 10, checksum := 0,
    syn := false, ack := false, fin := false, rst := false }

/-- A concrete IPv4 header template used to evaluate the operations on
explicit inputs. -/
def exampleIp : Ipv4Header :=
  { payload_len := 0, time_to_live := 64, protocol := 6,
    source := [10, 0, 0, 1], destination := [10, 0, 0, 2] }

/-- A concrete established connection used to evaluate the operations on
explicit inputs. -/
def exampleConn : Connection :=
  { state := State.Estab
    send := { una := 0, nxt := 3, wnd := 10, up := false, wl1 := 0, wl2 := 0,
              iss := 0 }
    recv := { nxt := 7, wnd := 10, up := false, irs := 0 }
    ip := exampleIp
    tcp := exampleTcp }

/-- A concrete inbound SYN segment with peer sequence number 1000, the
handshake scenario of spec section 8. -/
def exampleSynSeg : InSegment :=
  { source_port := 4000, destination_port := 80, sequence_number := 1000,
    acknowledgment_number := 0, window_size := 500, syn := true, fin := false,
    data := [] }

/-- A concrete inbound IPv4 header for the handshake scenario. -/
def exampleIpIn : Ipv4In :=
  { source := [192, 168, 0, 1], destination := [192, 168, 0, 2] }

/-- Claim C6: `write` returns the number of payload bytes actually written,
the requested length truncated by the fixed 1500-byte frame size less the
two header lengths; `send.nxt` advances modularly by exactly that count,
plus one when the SYN flag was set and one when the FIN flag was set; and
both flags are cleared afterwards. -/
theorem claim_C6 (c : Connection) (payload : List Nat) :
    (Connection.write c payload).payload_bytes
        = min payload.length (1500 - ip_header_len - tcp_header_len) ∧
    (Connection.write c payload).conn.send.nxt
        = (c.send.nxt + (Connection.write c payload).payload_bytes
            + (if c.tcp.syn then 1 else 0) + (if c.tcp.fin then 1 else 0)) % N32 ∧
    (Connection.write c payload).conn.tcp.syn = false ∧
    (Connection.write c payload).conn.tcp.fin = false := by
  unfold Connection.write
  by_cases hs : c.tcp.syn <;> by_cases hf : c.tcp.fin <;>
    simp [hs, hf, N32]

/-- Claim C7 counterexample: for the concrete connection `exampleConn` and
the one-byte payload `[1]`, the checksum stored in the transmitted header
differs from the pseudo-header checksum over the assembled IP header, TCP
header and that payload, refuting the claim that the stored checksum
covers the payload being transmitted. -/
theorem claim_C7_counterexample :
    (Connection.write exampleConn [1]).seg.tcp.checksum ≠
      calc_checksum_ipv4 (Connection.write exampleConn [1]).seg.ip
        (Connection.write exampleConn [1]).seg.tcp [1] := by
  decide

/-- Claim C7 as amended: the checksum `write` stores in the outgoing header
is the pseudo-header checksum over the assembled IP and TCP headers with
an empty payload (the source passes `&[]` to the codec at line 166), so
the transmitted payload is not covered and two calls differing only in
the payload store the same checksum. -/
theorem claim_C7_amended (c : Connection) (payload : List Nat) :
    (Connection.write c payload).seg.tcp.checksum
        = calc_checksum_ipv4 (Connection.write c payload).seg.ip
            (Connection.write c payload).seg.tcp [] ∧
    (Connection.write c payload).seg.tcp.checksum
        = (Connection.write c []).seg.tcp.checksum := by
  unfold Connection.write
  simp [calc_checksum_ipv4, tcpFlagsWord]

/-- Claim C8 counterexample: for the concrete connection `exampleConn`
(with `send.nxt = 3` and `recv.nxt = 7`), the segment transmitted by
`send_rst` carries the RST flag but nonzero on-wire sequence and
acknowledgment numbers, refuting the claim that both are zero. -/
theorem claim_C8_counterexample :
    (Connection.send_rst exampleConn).2.tcp.rst = true ∧
    (Connection.send_rst exampleConn).2.tcp.sequence_number ≠ 0 ∧
    (Connection.send_rst exampleConn).2.tcp.acknowledgment_number ≠ 0 := by
  decide

/-- Claim C8 as amended: `send_rst` forces the RST flag (carried by the
transmitted segment and kept in the template) and zeroes the sequence and
acknowledgment numbers of the header template, but the transmission path
restamps them, so the on-wire segment carries `send.nxt` and `recv.nxt`
(zero only when those are zero). -/
theorem claim_C8_amended (c : Connection) :
    (Connection.send_rst c).2.tcp.rst = true ∧
    (Connection.send_rst c).1.tcp.rst = true ∧
    (Connection.send_rst c).2.tcp.sequence_number = c.send.nxt ∧
    (Connection.send_rst c).2.tcp.acknowledgment_number = c.recv.nxt := by
  unfold Connection.send_rst Connection.write
  simp

/-- Claim C4: `accept` creates a connection only for a SYN segment,
answering no-connection (not an error) otherwise; the created connection
starts in `SynRcvd` with `send.nxt = iss + 1`, `send.una = iss`, the fixed
`send.wnd = 10`, `recv.nxt = peer_seq + 1`, `recv.wnd` the advertised
window and `recv.irs = peer_seq`; and exactly one SYN+ACK segment is
transmitted as a side effect of creation, carrying acknowledgment number
`peer_seq + 1`.  (`send.nxt = iss + 1` holds of the connection as
constructed; the SYN+ACK transmission that creation performs then
consumes one more sequence number through `write`.) -/
theorem claim_C4 (iph : Ipv4In) (tcph : InSegment) :
    (tcph.syn = false → Connection.accept iph tcph = none) ∧
    (tcph.syn = true →
      (accept_init iph tcph).state = State.SynRcvd ∧
      (accept_init iph tcph).send.nxt
          = ((accept_init iph tcph).send.iss + 1) % N32 ∧
      (accept_init iph tcph).send.una = (accept_init iph tcph).send.iss ∧
      (accept_init iph tcph).send.wnd = 10 ∧
      (accept_init iph tcph).recv.nxt = (tcph.sequence_number + 1) % N32 ∧
      (accept_init iph tcph).recv.wnd = tcph.window_size ∧
      (accept_init iph tcph).recv.irs = tcph.sequence_number ∧
      Connection.accept iph tcph =
        some ((Connection.write (accept_init iph tcph) []).conn,
              (Connection.write (accept_init iph tcph) []).seg) ∧
      (Connection.write (accept_init iph tcph) []).seg.tcp.syn = true ∧
      (Connection.write (accept_init iph tcph) []).seg.tcp.ack = true ∧
      (Connection.write (accept_init iph tcph) []).seg.tcp.acknowledgment_number
          = (tcph.sequence_number + 1) % N32 ∧
      (Connection.write (accept_init iph tcph) []).conn.state = State.SynRcvd ∧
      (Connection.write (accept_init iph tcph) []).conn.recv.nxt
          = (tcph.sequence_number + 1) % N32) := by
  constructor
  · intro h
    unfold Connection.accept
    simp [h]
  · intro h
    refine ⟨rfl, rfl, rfl, rfl, rfl, rfl, rfl, ?_, ?_, ?_, ?_, ?_, ?_⟩
    · unfold Connection.accept
      simp [h]
    · unfold Connection.write accept_init
      simp
    · unfold Connection.write accept_init
      simp
    · unfold Connection.write accept_init
      simp
    · unfold Connection.write accept_init
      simp
    · unfold Connection.write accept_init
      simp

/-- Claim C4 witness: the handshake scenario of spec section 8, a SYN with
peer sequence number 1000: after creation `recv.nxt = 1001`, the state is
`SynRcvd`, and the one transmitted SYN+ACK carries acknowledgment number
1001. -/
theorem claim_C4_witness :
    (accept_init exampleIpIn exampleSynSeg).recv.nxt = 1001 ∧
    (Connection.write (accept_init exampleIpIn exampleSynSeg)
        []).seg.tcp.acknowledgment_number = 1001 ∧
    (Connection.write (accept_init exampleIpIn exampleSynSeg)
        []).conn.state = State.SynRcvd ∧
    (Connection.write (accept_init exampleIpIn exampleSynSeg)
        []).seg.tcp.syn = true := by
  obtain ⟨h1, h2, h3, h4, h5, h6, h7, h8, h9, h10, h11, h12, h13⟩ :=
    (claim_C4 exampleIpIn exampleSynSeg).2 rfl
  refine ⟨?_, ?_, h12, h9⟩
  · rw [h5]; decide
  · rw [h11]; decide

/-- A concrete segment whose sequence number 100 is far outside the
receive window of `exampleConn`, so the acceptance test rejects it. -/
def exRejectSeg : InSegment :=
  { source_port := 4000, destination_port := 80, sequence_number := 100,
    acknowledgment_number := 1, window_size := 0, syn := false, fin := false,
    data := [] }

/-- A concrete in-window pure ACK whose acknowledgment number equals
`send.una` of `exampleConn`, so the ACK validity gate drops it; its
sequence number 8 is one past `recv.nxt = 7`. -/
def exStaleSeg : InSegment :=
  { source_port := 4000, destination_port := 80, sequence_number := 8,
    acknowledgment_number := 0, window_size := 0, syn := false, fin := false,
    data := [] }

/-- Claim C3 counterexample: `exStaleSeg` is rejected by the ACK validity
gate of `exampleConn` (a synchronized connection) after passing the
acceptance test, and `on_packet` indeed returns success without
transmitting, but the connection state is not left unchanged: `recv.nxt`
has moved from 7 to 8. -/
theorem claim_C3_counterexample :
    inAckStates exampleConn.state = true ∧
    segmentAcceptable exampleConn.recv.nxt exampleConn.recv.wnd
        exStaleSeg.sequence_number (slenOf exStaleSeg) = true ∧
    is_between_wrapped exampleConn.send.una exStaleSeg.acknowledgment_number
        ((exampleConn.send.nxt + 1) % N32) = false ∧
    (Connection.on_packet exampleConn exStaleSeg).map
        (fun p => (p.1.recv.nxt, p.2.length)) = some (8, 0) ∧
    exampleConn.recv.nxt = 7 := by
  decide

/-- Claim C3 as amended: a segment failing the acceptance test is silently
dropped — `on_packet` returns success, transmits nothing, and leaves the
connection completely unchanged; a segment that passes acceptance but is
rejected by the ACK validity gate also returns success with no
transmission and no further processing, but by then `recv.nxt` has already
been advanced to `seqn + slen` (mod 2^32) and a `SynRcvd` connection whose
acknowledgment number passed the handshake check has moved to `Estab`:
that updated connection is kept. -/
theorem claim_C3_amended (c : Connection) (s : InSegment) :
    (segmentAcceptable c.recv.nxt c.recv.wnd s.sequence_number (slenOf s) = false →
      Connection.on_packet c s = some (c, [])) ∧
    (∀ c1, c1 = synStep (recvAdvance c s.sequence_number (slenOf s))
        s.acknowledgment_number →
      segmentAcceptable c.recv.nxt c.recv.wnd s.sequence_number (slenOf s) = true →
      inAckStates c1.state = true →
      is_between_wrapped c1.send.una s.acknowledgment_number
          ((c1.send.nxt + 1) % N32) = false →
      Connection.on_packet c s = some (c1, [])) := by
  constructor
  · intro h
    unfold Connection.on_packet
    simp [h]
  · intro c1 hc1 hacc hst hgate
    subst hc1
    unfold Connection.on_packet
    simp [hacc, hst, hgate]

/-- Claim C3 witness: the amended theorem applied to `exampleConn` with the
out-of-window segment `exRejectSeg` (acceptance rejection, connection
unchanged) and with the stale ACK `exStaleSeg` (gate rejection, the
acceptance-stage updates kept). -/
theorem claim_C3_amended_witness :
    Connection.on_packet exampleConn exRejectSeg = some (exampleConn, []) ∧
    Connection.on_packet exampleConn exStaleSeg =
      some (synStep (recvAdvance exampleConn exStaleSeg.sequence_number
              (slenOf exStaleSeg)) exStaleSeg.acknowledgment_number, []) := by
  constructor
  · exact (claim_C3_amended exampleConn exRejectSeg).1 (by decide)
  · exact (claim_C3_amended exampleConn exStaleSeg).2
      (synStep (recvAdvance exampleConn exStaleSeg.sequence_number
        (slenOf exStaleSeg)) exStaleSeg.acknowledgment_number)
      rfl (by decide) (by decide) (by decide)

/-- A concrete connection as `accept` leaves it: state `SynRcvd`,
`send.una = iss = 0`, `send.nxt = 2` (the SYN consumed one sequence
number through `write`). -/
def exSynRcvdConn : Connection :=
  { state := State.SynRcvd
    send := { una := 0, nxt := 2, wnd := 10, up := false, wl1 := 0, wl2 := 0,
              iss := 0 }
    recv := { nxt := 50, wnd := 10, up := false, irs := 49 }
    ip := exampleIp
    tcp := exampleTcp }

/-- A concrete in-window empty segment acknowledging `iss + 1 = 1`, the
handshake-completing ACK of the spec scenario. -/
def exAck1Seg : InSegment :=
  { source_port := 4000, destination_port := 80, sequence_number := 50,
    acknowledgment_number := 1, window_size := 0, syn := false, fin := false,
    data := [] }

/-- A concrete in-window empty segment acknowledging `iss + 2 = 2`: both
ACK gates pass, yet processing continues past `FinWait1`. -/
def exAck2Seg : InSegment :=
  { source_port := 4000, destination_port := 80, sequence_number := 50,
    acknowledgment_number := 2, window_size := 0, syn := false, fin := false,
    data := [] }

/-- Claim C5 counterexample: `exAck2Seg` satisfies every hypothesis of the
claim against `exSynRcvdConn` — the connection is in `SynRcvd`, the
segment is accepted, its acknowledgment number 2 lies in both circular
intervals, and the payload is empty — yet `on_packet` ends in `FinWait2`,
not `FinWait1`: with `ackn = iss + 2` the `FinWait1` to `FinWait2`
promotion fires in the same pass, a third transition. -/
theorem claim_C5_counterexample :
    exSynRcvdConn.state = State.SynRcvd ∧
    segmentAcceptable exSynRcvdConn.recv.nxt exSynRcvdConn.recv.wnd
        exAck2Seg.sequence_number (slenOf exAck2Seg) = true ∧
    is_between_wrapped ((exSynRcvdConn.send.una + N32 - 1) % N32)
        exAck2Seg.acknowledgment_number
        ((exSynRcvdConn.send.nxt + 1) % N32) = true ∧
    is_between_wrapped exSynRcvdConn.send.una exAck2Seg.acknowledgment_number
        ((exSynRcvdConn.send.nxt + 1) % N32) = true ∧
    exAck2Seg.data = [] ∧
    (Connection.on_packet exSynRcvdConn exAck2Seg).map (fun p => p.1.state)
      = some State.FinWait2 := by
  decide

/-- Claim C5 as amended: a `SynRcvd` connection receiving an accepted
segment whose acknowledgment number lies in `(send.una - 1, send.nxt + 1)`
moves to `Estab`; within the same call — given the ACK also passes the
`(send.una, send.nxt + 1)` gate, the payload is empty, the segment does
not itself carry FIN (a FIN here panics in the FIN-handling step), and
`ackn ≠ iss + 2` (mod 2^32), otherwise the `FinWait1` to `FinWait2`
promotion fires as a third transition — the engine sets the FIN flag,
transmits one segment, and moves to `FinWait1`: two state transitions from
one input segment. -/
theorem claim_C5_amended (c : Connection) (s : InSegment)
    (hstate : c.state = State.SynRcvd)
    (hacc : segmentAcceptable c.recv.nxt c.recv.wnd s.sequence_number
        (slenOf s) = true)
    (hsyn : is_between_wrapped ((c.send.una + N32 - 1) % N32)
        s.acknowledgment_number ((c.send.nxt + 1) % N32) = true)
    (hgate : is_between_wrapped c.send.una s.acknowledgment_number
        ((c.send.nxt + 1) % N32) = true)
    (hdata : s.data = [])
    (hfin : s.fin = false)
    (hnotfin2 : s.acknowledgment_number ≠ (c.send.iss + 2) % N32) :
    (synStep (recvAdvance c s.sequence_number (slenOf s))
        s.acknowledgment_number).state = State.Estab ∧
    (Connection.on_packet c s).map
        (fun p => (p.1.state, p.2.map (fun sg => sg.tcp.fin)))
      = some (State.FinWait1, [true]) := by
  constructor
  · simp [synStep, recvAdvance, hstate, hsyn]
  · unfold Connection.on_packet
    simp [recvAdvance, synStep, inAckStates, afterAck, finHandle,
      Connection.write, hstate, hacc, hsyn, hgate, hdata, hfin, hnotfin2]

/-- Claim C5 witness: the spec scenario — the handshake-completing ACK
`exAck1Seg` (with `ackn = iss + 1`) against the `SynRcvd` connection
`exSynRcvdConn`: the state passes through `Estab` and ends in `FinWait1`,
with exactly one transmitted segment carrying FIN. -/
theorem claim_C5_amended_witness :
    (synStep (recvAdvance exSynRcvdConn exAck1Seg.sequence_number
        (slenOf exAck1Seg)) exAck1Seg.acknowledgment_number).state
      = State.Estab ∧
    (Connection.on_packet exSynRcvdConn exAck1Seg).map
        (fun p => (p.1.state, p.2.map (fun sg => sg.tcp.fin)))
      = some (State.FinWait1, [true]) :=
  claim_C5_amended exSynRcvdConn exAck1Seg rfl (by decide) (by decide)
    (by decide) rfl rfl (by decide)

/-- A concrete connection in `FinWait2`. -/
def exFin2Conn : Connection :=
  { exampleConn with state := State.FinWait2 }

/-- Claim C9: for an incoming FIN, the FIN-handling step of `on_packet`
transmits a FIN segment and sets the state back to `FinWait1` when the
state at that step is `FinWait2`, and hits the `unreachable!` branch (a
panic, modelled as `none`) in every other state — never a handled or
silently ignored case. -/
theorem claim_C9 (c : Connection) (segs : List OutSegment) :
    (c.state = State.FinWait2 →
      finHandle c true segs =
        some ({ (Connection.write { c with tcp := { c.tcp with fin := true } }
                    []).conn with state := State.FinWait1 },
              segs ++ [(Connection.write { c with
                  tcp := { c.tcp with fin := true } } []).seg]) ∧
      (Connection.write { c with tcp := { c.tcp with fin := true } }
          []).seg.tcp.fin = true) ∧
    (c.state ≠ State.FinWait2 → finHandle c true segs = none) := by
  constructor
  · intro h
    refine ⟨?_, ?_⟩
    · simp [finHandle, h]
    · unfold Connection.write
      simp
  · intro h
    cases hs : c.state <;> simp_all [finHandle]

/-- Claim C9 witness: the FIN-handling step applied at a concrete
`FinWait2` connection transmits and returns to `FinWait1`, while at a
concrete `Estab` connection it panics. -/
theorem claim_C9_witness :
    finHandle exFin2Conn true [] =
      some ({ (Connection.write { exFin2Conn with
                  tcp := { exFin2Conn.tcp with fin := true } } []).conn
                with state := State.FinWait1 },
            [] ++ [(Connection.write { exFin2Conn with
                tcp := { exFin2Conn.tcp with fin := true } } []).seg]) ∧
    finHandle exampleConn true [] = none := by
  constructor
  · exact ((claim_C9 exFin2Conn []).1 rfl).1
  · exact (claim_C9 exampleConn []).2 (by decide)

/-- `write` copies the RST flag of the template into both the updated
template and the wire segment. -/
theorem rst_write (c : Connection) (payload : List Nat) :
    (Connection.write c payload).conn.tcp.rst = c.tcp.rst ∧
    (Connection.write c payload).seg.tcp.rst = c.tcp.rst := by
  unfold Connection.write
  simp

/-- `write` copies the RST flag of the template into the updated template
(rewrite form of the first half of `rst_write`). -/
theorem rst_write_conn (c : Connection) (payload : List Nat) :
    (Connection.write c payload).conn.tcp.rst = c.tcp.rst :=
  (rst_write c payload).1

/-- `write` copies the RST flag of the template into the wire segment
(rewrite form of the second half of `rst_write`). -/
theorem rst_write_seg (c : Connection) (payload : List Nat) :
    (Connection.write c payload).seg.tcp.rst = c.tcp.rst :=
  (rst_write c payload).2

/-- The stage functions before the ACK block leave the header template
untouched. -/
theorem synStep_recvAdvance_tcp (c : Connection) (seqn slen a : Nat) :
    (synStep (recvAdvance c seqn slen) a).tcp = c.tcp := by
  unfold synStep recvAdvance
  split_ifs <;> rfl

/-- The FIN-handling step preserves a set RST flag of the connection and
of every transmitted segment. -/
theorem rst_finHandle (c : Connection) (f : Bool) (segs : List OutSegment)
    (hc : c.tcp.rst = true) (hsegs : ∀ sg ∈ segs, sg.tcp.rst = true) :
    ∀ c2 segs2, finHandle c f segs = some (c2, segs2) →
      c2.tcp.rst = true ∧ ∀ sg ∈ segs2, sg.tcp.rst = true := by
  intro c2 segs2 h
  unfold finHandle at h
  split at h
  · split at h
    · simp only [Option.some.injEq, Prod.mk.injEq] at h
      obtain ⟨h1, h2⟩ := h
      subst h1
      subst h2
      refine ⟨?_, ?_⟩
      · rw [(rst_write _ _).1]
        exact hc
      · intro sg hsg
        rcases List.mem_append.mp hsg with hin | hin
        · exact hsegs sg hin
        · simp only [List.mem_singleton] at hin
          rw [hin, (rst_write _ _).2]
          exact hc
    · exact absurd h (by simp)
  · simp only [Option.some.injEq, Prod.mk.injEq] at h
    obtain ⟨h1, h2⟩ := h
    subst h1
    subst h2
    exact ⟨hc, hsegs⟩

/-- The tail of `on_packet` preserves a set RST flag of the connection and
of every transmitted segment. -/
theorem rst_afterAck (c : Connection) (f : Bool) (segs : List OutSegment)
    (hc : c.tcp.rst = true) (hsegs : ∀ sg ∈ segs, sg.tcp.rst = true) :
    ∀ c2 segs2, afterAck c f segs = some (c2, segs2) →
      c2.tcp.rst = true ∧ ∀ sg ∈ segs2, sg.tcp.rst = true := by
  intro c2 segs2 h
  simp only [afterAck] at h
  split at h
  · apply rst_finHandle _ f segs _ hsegs c2 segs2 h
    exact hc
  · exact rst_finHandle _ f segs hc hsegs c2 segs2 h

/-- Claim C10: once `send_rst` has set the RST flag in the header template,
it stays set: `send_rst` leaves it set, `write` clears only SYN and FIN
and copies RST into the wire segment, and every successful `on_packet`
run keeps it set in the template and on every segment it transmits. -/
theorem claim_C10 (c : Connection) (payload : List Nat) (s : InSegment)
    (c2 : Connection) (segs : List OutSegment) :
    ((Connection.send_rst c).1.tcp.rst = true) ∧
    (c.tcp.rst = true →
      (Connection.write c payload).conn.tcp.rst = true ∧
      (Connection.write c payload).seg.tcp.rst = true) ∧
    (c.tcp.rst = true → Connection.on_packet c s = some (c2, segs) →
      c2.tcp.rst = true ∧ ∀ sg ∈ segs, sg.tcp.rst = true) := by
  refine ⟨?_, ?_, ?_⟩
  · simp only [Connection.send_rst]
    rw [(rst_write _ _).1]
  · intro hc
    refine ⟨?_, ?_⟩
    · rw [(rst_write _ _).1]; exact hc
    · rw [(rst_write _ _).2]; exact hc
  · intro hc h
    have hct : (synStep (recvAdvance c s.sequence_number (slenOf s))
        s.acknowledgment_number).tcp = c.tcp := synStep_recvAdvance_tcp c _ _ _
    simp only [Connection.on_packet] at h
    split at h
    · simp only [Option.some.injEq, Prod.mk.injEq] at h
      obtain ⟨h1, h2⟩ := h
      subst h1
      subst h2
      refine ⟨hc, ?_⟩
      intro sg hsg
      simp at hsg
    · split at h
      · refine rst_afterAck _ s.fin [] ?_ ?_ c2 segs h
        · rw [hct]; exact hc
        · intro sg hsg; simp at hsg
      · split at h
        · simp only [Option.some.injEq, Prod.mk.injEq] at h
          obtain ⟨h1, h2⟩ := h
          subst h1
          subst h2
          refine ⟨by rw [hct]; exact hc, ?_⟩
          intro sg hsg
          simp at hsg
        · split at h
          · split at h
            · exact absurd h (by simp)
            · refine rst_afterAck _ s.fin _ ?_ ?_ c2 segs h
              · simp only [rst_write_conn, synStep_recvAdvance_tcp]
                exact hc
              · intro sg hsg
                simp only [List.mem_singleton] at hsg
                subst hsg
                simp only [rst_write_seg, synStep_recvAdvance_tcp]
                exact hc
          · refine rst_afterAck _ s.fin [] ?_ ?_ c2 segs h
            · simp only [synStep_recvAdvance_tcp]
              exact hc
            · intro sg hsg; simp at hsg

/-- A concrete connection whose template carries the RST flag, as
`send_rst` leaves it. -/
def exRstConn : Connection :=
  { exampleConn with tcp := { exampleTcp with rst := true } }

/-- Claim C10 witness: the invariant applied at a concrete connection with
the RST flag set — `send_rst` keeps it, `write` of a one-byte payload
keeps it in the template and on the wire, and a full `on_packet` run (on
an out-of-window segment) returns a connection that still carries it. -/
theorem claim_C10_witness :
    (Connection.send_rst exRstConn).1.tcp.rst = true ∧
    (Connection.write exRstConn [1]).conn.tcp.rst = true ∧
    (Connection.write exRstConn [1]).seg.tcp.rst = true ∧
    exRstConn.tcp.rst = true := by
  have h := claim_C10 exRstConn [1] exRejectSeg exRstConn []
  exact ⟨h.1, (h.2.1 rfl).1, (h.2.1 rfl).2, (h.2.2 rfl (by decide)).1⟩
